import Mathlib

/-!
# Verification of the GitHub metadata connector

Shallow embedding of `src/app/clients.py`, `src/app/activities.py` and
`src/app/workflow.py`. Upstream JSON objects are modelled as structures of
`Option` fields (`none` stands for a key that is missing or set to `null`,
which the Python code treats identically through `dict.get`); Python
falsy-coalescing (`x or y`) is modelled explicitly; HTTP failures are
modelled with `Except`; the remote server is an oracle function supplied as
an argument.
-/

namespace GitHubApp

/-- Python truthiness filter for an optional string: `none` for a missing,
`null` or empty-string value, mirroring `not s` in Python. -/
def pyStr (x : Option String) : Option String :=
  match x with
  | none => none
  | some s => if s = "" then none else some s

/-- Python `x or d` for an optional string `x` and a string default `d`:
the default is taken when `x` is missing, `null` or the empty string. -/
def pyOr (x : Option String) (d : String) : String :=
  match pyStr x with
  | none => d
  | some s => s

/-- Python `d.get(k, 0) or 0` for an integer-valued key: missing and `null`
both map to `0`; a present integer `n` maps to itself (`n or 0 = n` also
when `n = 0`). -/
def pyIntOr0 (x : Option Int) : Int := x.getD 0

/-- Errors raised by the HTTP layer, per the spec taxonomy:
`RemoteHttpError` models `httpx.HTTPStatusError` after
`response.raise_for_status()`, `TransportError` models network-level
failures. -/
inductive FetchError where
  | RemoteHttpError (statusCode : Int)
  | TransportError (msg : String)
deriving DecidableEq, Repr

/-- Raw GitHub user JSON: the keys read by
`GitHubClient._normalize_user_json` (src/app/clients.py). -/
structure UserJson where
  name : Option String := none
  login : Option String := none
  node_id : Option String := none
  html_url : Option String := none
  avatar_url : Option String := none
  «type» : Option String := none
  company : Option String := none
  location : Option String := none
  email : Option String := none
  blog : Option String := none
  twitter_username : Option String := none
  created_at : Option String := none
  followers_url : Option String := none
  following_url : Option String := none
  bio : Option String := none
  followers : Option Int := none
  following : Option Int := none
  public_repos : Option Int := none
  public_gists : Option Int := none
deriving DecidableEq, Repr

/-- Normalized user profile, `UserMetadata` of src/app/types.py. -/
structure UserMetadata where
  name : String
  node_id : String
  profile_url : String
  avatar_url : String
  «type» : String
  company : String
  location : String
  email : String
  blog : String
  twitter_username : String
  created_at : String
  followers_url : String
  following_url : String
  bio : String
  followers : Int
  following : Int
  public_repos : Int
  public_gists : Int
deriving DecidableEq, Repr

/-- `GitHubClient._normalize_user_json` (src/app/clients.py): every field is
built with Python `or`-coalescing, so missing, `null` and falsy values all
take the default; `name` coalesces through `login` first. -/
def normalize_user_json (user_json : UserJson) : UserMetadata :=
  { name := pyOr user_json.name (pyOr user_json.login "N/A")
    node_id := pyOr user_json.node_id "N/A"
    profile_url := pyOr user_json.html_url "N/A"
    avatar_url := pyOr user_json.avatar_url "N/A"
    «type» := pyOr user_json.«type» "N/A"
    company := pyOr user_json.company "N/A"
    location := pyOr user_json.location "N/A"
    email := pyOr user_json.email "N/A"
    blog := pyOr user_json.blog "N/A"
    twitter_username := pyOr user_json.twitter_username "N/A"
    created_at := pyOr user_json.created_at "N/A"
    followers_url := pyOr user_json.followers_url "N/A"
    following_url := pyOr user_json.following_url "N/A"
    bio := pyOr user_json.bio "No bio provided."
    followers := pyIntOr0 user_json.followers
    following := pyIntOr0 user_json.following
    public_repos := pyIntOr0 user_json.public_repos
    public_gists := pyIntOr0 user_json.public_gists }

/-- `GitHubClient.fetch_user_profile_data` (src/app/clients.py): one GET for
`/users/{username}` against the server oracle, then normalization; HTTP and
transport errors are re-raised unchanged. -/
def fetch_user_profile_data (server : String → Except FetchError UserJson)
    (username : String) : Except FetchError UserMetadata :=
  (server username).map normalize_user_json

/-- Raw GitHub repository JSON: the keys read by the page-normalization
comprehension in `fetch_all_repository_data` (src/app/clients.py). -/
structure RepoJson where
  name : Option String := none
  description : Option String := none
  language : Option String := none
  stargazers_count : Option Int := none
  forks_count : Option Int := none
  open_issues_count : Option Int := none
  created_at : Option String := none
  updated_at : Option String := none
  html_url : Option String := none
deriving DecidableEq, Repr

/-- Normalized repository record, `RepoMetadata` of src/app/types.py.
Fields stay optional: the comprehension uses plain `repo.get(...)` with no
sentinel substitution. -/
structure RepoMetadata where
  name : Option String
  description : Option String
  language : Option String
  star_count : Option Int
  fork_count : Option Int
  issue_count : Option Int
  created_at : Option String
  updated_at : Option String
  url : Option String
deriving DecidableEq, Repr

/-- The per-repository normalization inside `fetch_all_repository_data`
(src/app/clients.py): a straight field relabelling via `repo.get`. -/
def normalize_repo (repo : RepoJson) : RepoMetadata :=
  { name := repo.name
    description := repo.description
    language := repo.language
    star_count := repo.stargazers_count
    fork_count := repo.forks_count
    issue_count := repo.open_issues_count
    created_at := repo.created_at
    updated_at := repo.updated_at
    url := repo.html_url }

/-- The pagination loop of `fetch_all_repository_data` (src/app/clients.py),
`for page_num in itertools.count(1)`. The server oracle maps
`(page, per_page)` to a page body or an HTTP/transport error. `fuel` bounds
the recursion (the Python loop is intentionally unbounded; `none` marks
fuel exhaustion and is never the code's own output). The result pairs the
outcome with the number of requests issued: on an error the whole fetch
aborts with that error, so the caller receives no records. -/
def fetch_pages (server : Nat → Nat → Except FetchError (List RepoJson)) :
    Nat → Nat → Option (Except FetchError (List RepoMetadata) × Nat)
  | 0, _ => none
  | fuel + 1, page_num =>
    match server page_num 100 with
    | .error e => some (.error e, 1)
    | .ok [] => some (.ok [], 1)
    | .ok page_data =>
      match fetch_pages server fuel (page_num + 1) with
      | none => none
      | some (.error e, n) => some (.error e, n + 1)
      | some (.ok rest, n) => some (.ok (page_data.map normalize_repo ++ rest), n + 1)

/-- `GitHubClient.fetch_all_repository_data` (src/app/clients.py): pages are
requested sequentially starting at page 1 with `per_page = 100`. -/
def fetch_all_repository_data (server : Nat → Nat → Except FetchError (List RepoJson))
    (fuel : Nat) : Option (Except FetchError (List RepoMetadata) × Nat) :=
  fetch_pages server fuel 1

/-! ## Activities (src/app/activities.py) -/

/-- The process environment as read by `os.getenv` inside
`_resolve_credentials` (`none` for an unset variable; `some ""` is possible
for a variable set to the empty string). -/
structure Env where
  GITHUB_USERNAME : Option String := none
  GITHUB_PAT : Option String := none
deriving DecidableEq, Repr

/-- The credential-bearing keys of the workflow-args mapping; `none` stands
for a key that is absent or set to `null` (both make `dict.get` return
`None`). -/
structure WorkflowArgsCreds where
  username : Option String := none
  pat : Option String := none
deriving DecidableEq, Repr

/-- `_resolve_credentials` (src/app/activities.py): prefer the workflow-args
value, but fall through to the environment when it is missing, `null` or
falsy (`if not username: username = os.getenv(...)`). The environment is an
explicit argument because the Python code reads `os.getenv` at call time,
inside the function body — nothing is cached at construction. -/
def resolve_credentials (workflow_args : Option WorkflowArgsCreds) (env : Env) :
    Option String × Option String :=
  let username := match workflow_args with
    | none => none
    | some a => a.username
  let pat := match workflow_args with
    | none => none
    | some a => a.pat
  let username := match pyStr username with
    | none => env.GITHUB_USERNAME
    | some _ => username
  let pat := match pyStr pat with
    | none => env.GITHUB_PAT
    | some _ => pat
  (username, pat)

/-- Outcome of the preflight activity. `configurationError` models the
`ValueError` raised on missing credentials (the spec's
`ConfigurationError`); `fetchFailed` models a re-raised probe failure;
`passed` is the `return None` success path (no payload). -/
inductive PreflightOutcome where
  | configurationError (msg : String)
  | fetchFailed (e : FetchError)
  | passed
deriving DecidableEq, Repr

/-- `GitHubActivities.preflight_check` (src/app/activities.py): resolve
credentials, raise on a missing PAT, then on a missing username, else make
one profile fetch and discard its result. The second component is the list
of usernames the probe actually fetched, in order. -/
def preflight_check (fetch : String → Except FetchError UserJson)
    (workflow_args : Option WorkflowArgsCreds) (env : Env) :
    PreflightOutcome × List String :=
  let resolved := resolve_credentials workflow_args env
  match pyStr resolved.2 with
  | none => (.configurationError "Personal Access Token (PAT) is missing.", [])
  | some _ =>
    match pyStr resolved.1 with
    | none => (.configurationError "GitHub username is missing.", [])
    | some effective_username =>
      match fetch effective_username with
      | .ok _ => (.passed, [effective_username])
      | .error e => (.fetchFailed e, [effective_username])

/-- The slice of the `user_data` mapping read by
`compute_summary_stats_activity` via `user_metadata.get(..., 0) or 0`; the
mapping may be partial, so every field is optional. `public_repos` is
carried but never read by the aggregation. -/
structure StatsUserInput where
  followers : Option Int := none
  following : Option Int := none
  public_gists : Option Int := none
  public_repos : Option Int := none
deriving DecidableEq, Repr

/-- Aggregated counts, `SummaryStats` of src/app/types.py. -/
structure SummaryStats where
  total_public_repos : Int
  total_followers : Int
  total_following : Int
  total_public_gists : Int
deriving DecidableEq, Repr

/-- The `{"user_data": ..., "repo_data": ...}` bundle received by the
aggregation activity; either key may be absent (`raw_data.get` with a
default). -/
structure RawData where
  user_data : Option StatsUserInput := none
  repo_data : Option (List RepoMetadata) := none

/-- `GitHubActivities.compute_summary_stats_activity`
(src/app/activities.py): a missing `user_data` key defaults to the empty
mapping, a missing `repo_data` key to the empty list;
`total_public_repos` is the length of the repository list, the other three
counts come from the user mapping with `get(..., 0) or 0`. -/
def compute_summary_stats_activity (raw_data : RawData) : SummaryStats :=
  let user_metadata := raw_data.user_data.getD {}
  let repo_metadata := raw_data.repo_data.getD []
  { total_public_repos := (repo_metadata.length : Int)
    total_followers := pyIntOr0 user_metadata.followers
    total_following := pyIntOr0 user_metadata.following
    total_public_gists := pyIntOr0 user_metadata.public_gists }

/-- The projection of a full normalized profile to the keys the aggregation
reads: when the workflow hands `user_data` to the aggregation activity all
keys are present. -/
def UserMetadata.toStatsInput (u : UserMetadata) : StatsUserInput :=
  { followers := some u.followers
    following := some u.following
    public_gists := some u.public_gists
    public_repos := some u.public_repos }

/-! ## Workflow (src/app/workflow.py) -/

/-- The four activities `GitHubWorkflow.run` invokes. -/
inductive StepName where
  | preflight
  | retrieveUserProfile
  | retrieveRepositories
  | computeSummaryStats
deriving DecidableEq, Repr

/-- `temporalio.common.RetryPolicy` as declared in `GitHubWorkflow.run`. -/
structure RetryPolicy where
  maximum_attempts : Nat
  backoff_coefficient : Nat
deriving DecidableEq, Repr

/-- The retry policy declared once in `GitHubWorkflow.run` and passed to
every `execute_activity_method` call. -/
def workflow_retry_policy : RetryPolicy :=
  { maximum_attempts := 6, backoff_coefficient := 2 }

/-- Modelled from the spec: `self.default_start_to_close_timeout` comes from
the external `application_sdk` `WorkflowInterface` base class, which is not
part of this repository's sources; the spec fixes only that "Preflight uses
a longer step timeout than the other three steps", i.e. longer than their
60 seconds. Any concrete value above 60 realizes that sentence. -/
def default_start_to_close_timeout : Nat := 7200

/-- One `execute_activity_method` call: the activity it runs and the policy
parameters declared for it. -/
structure StepDecl where
  step : StepName
  retry_policy : RetryPolicy
  start_to_close_timeout : Nat
deriving DecidableEq, Repr

/-- Final (post-retry) outcomes of the three fallible fetch activities, as
delivered by the durable-execution engine to the awaiting workflow. -/
structure ActivityOutcomes where
  preflight : Except String Unit
  retrieve_user_profile : Except String UserMetadata
  retrieve_repositories : Except String (List RepoMetadata)

/-- `GitHubWorkflow.run` (src/app/workflow.py): preflight as a sequential
gate; then `asyncio.gather` fans out profile and repository retrieval and
re-raises if either fails, so aggregation runs only after both succeed.
Returns the workflow outcome and the ordered list of
`execute_activity_method` declarations actually issued. -/
def GitHubWorkflow.run (acts : ActivityOutcomes) :
    Except String SummaryStats × List StepDecl :=
  let preflightDecl : StepDecl :=
    { step := .preflight
      retry_policy := workflow_retry_policy
      start_to_close_timeout := default_start_to_close_timeout }
  match acts.preflight with
  | .error e => (.error e, [preflightDecl])
  | .ok _ =>
    let profileDecl : StepDecl :=
      { step := .retrieveUserProfile
        retry_policy := workflow_retry_policy
        start_to_close_timeout := 60 }
    let reposDecl : StepDecl :=
      { step := .retrieveRepositories
        retry_policy := workflow_retry_policy
        start_to_close_timeout := 60 }
    let gathered := [preflightDecl, profileDecl, reposDecl]
    match acts.retrieve_user_profile, acts.retrieve_repositories with
    | .error e, _ => (.error e, gathered)
    | .ok _, .error e => (.error e, gathered)
    | .ok user_data, .ok repo_data =>
      let statsDecl : StepDecl :=
        { step := .computeSummaryStats
          retry_policy := workflow_retry_policy
          start_to_close_timeout := 60 }
      let summary_stats := compute_summary_stats_activity
        { user_data := some user_data.toStatsInput, repo_data := some repo_data }
      (.ok summary_stats, gathered ++ [statsDecl])

/-! ## Concrete scenarios used by the witnesses -/

/-- Upstream page bodies of the spec's §8 pagination example: two full
pages of 100 items, one of 37, then empty pages. -/
def examplePages (i : Nat) : List RepoJson :=
  if i ≤ 2 then List.replicate 100 {} else if i = 3 then List.replicate 37 {} else []

/-- A server that always answers with `examplePages`. -/
def exampleServer (page : Nat) (_perPage : Nat) : Except FetchError (List RepoJson) :=
  .ok (examplePages page)

/-- A server whose first page is full and whose second request fails with
HTTP 500. -/
def exampleAbortServer (page : Nat) (_perPage : Nat) : Except FetchError (List RepoJson) :=
  if page = 1 then .ok (List.replicate 100 {}) else .error (.RemoteHttpError 500)

/-- A probe server that accepts every username. -/
def probeOk : String → Except FetchError UserJson := fun _ => .ok {}

/-- Outcomes where every activity succeeds, used to exhibit a run that
reaches aggregation. -/
def sampleOutcomesOk : ActivityOutcomes :=
  { preflight := .ok ()
    retrieve_user_profile := .ok (normalize_user_json {})
    retrieve_repositories := .ok [] }

/-- Outcomes where profile retrieval succeeds but repository retrieval
fails permanently. -/
def sampleOutcomesRepoFail : ActivityOutcomes :=
  { preflight := .ok ()
    retrieve_user_profile := .ok (normalize_user_json {})
    retrieve_repositories := .error "boom" }

/-! ## Pagination lemmas -/

/-- If pages `p, …, p+n-1` are nonempty and page `p+n` is empty, the loop
started at page `p` returns the page-ordered concatenation of the
normalized pages and issues `n+1` requests. -/
theorem fetch_pages_ok_spec (server : Nat → Nat → Except FetchError (List RepoJson))
    (pages : Nat → List RepoJson) :
    ∀ (n p fuel : Nat), n + 1 ≤ fuel →
      (∀ i, p ≤ i → i < p + n → server i 100 = .ok (pages i) ∧ pages i ≠ []) →
      server (p + n) 100 = .ok [] →
      fetch_pages server fuel p =
        some (.ok (((List.range' p n).map (fun i => (pages i).map normalize_repo)).flatten),
          n + 1)
  | 0, p, fuel + 1, _, _, hstop => by
    simp only [fetch_pages]
    rw [Nat.add_zero] at hstop
    rw [hstop]
    simp
  | n + 1, p, fuel + 1, hfuel, hpages, hstop => by
    have hp : server p 100 = .ok (pages p) ∧ pages p ≠ [] :=
      hpages p (Nat.le_refl p) (by omega)
    obtain ⟨a, l, hpl⟩ : ∃ a l, pages p = a :: l := by
      cases hc : pages p with
      | nil => exact absurd hc hp.2
      | cons a l => exact ⟨a, l, rfl⟩
    have hrec := fetch_pages_ok_spec server pages n (p + 1) fuel (by omega)
      (fun i h1 h2 => hpages i (by omega) (by omega))
      (by rw [show p + 1 + n = p + (n + 1) by omega]; exact hstop)
    simp only [fetch_pages]
    rw [hp.1, hpl, hrec]
    simp [List.range'_succ, hpl]

/-- If pages `p, …, p+m-1` are nonempty and the request for page `p+m`
fails, the loop started at page `p` propagates that error after `m+1`
requests, returning no records. -/
theorem fetch_pages_error_spec (server : Nat → Nat → Except FetchError (List RepoJson))
    (pages : Nat → List RepoJson) (e : FetchError) :
    ∀ (m p fuel : Nat), m + 1 ≤ fuel →
      (∀ i, p ≤ i → i < p + m → server i 100 = .ok (pages i) ∧ pages i ≠ []) →
      server (p + m) 100 = .error e →
      fetch_pages server fuel p = some (.error e, m + 1)
  | 0, p, fuel + 1, _, _, herr => by
    simp only [fetch_pages]
    rw [Nat.add_zero] at herr
    rw [herr]
  | m + 1, p, fuel + 1, hfuel, hpages, herr => by
    have hp : server p 100 = .ok (pages p) ∧ pages p ≠ [] :=
      hpages p (Nat.le_refl p) (by omega)
    obtain ⟨a, l, hpl⟩ : ∃ a l, pages p = a :: l := by
      cases hc : pages p with
      | nil => exact absurd hc hp.2
      | cons a l => exact ⟨a, l, rfl⟩
    have hrec := fetch_pages_error_spec server pages e m (p + 1) fuel (by omega)
      (fun i h1 h2 => hpages i (by omega) (by omega))
      (by rw [show p + 1 + m = p + (m + 1) by omega]; exact herr)
    simp only [fetch_pages]
    rw [hp.1, hpl, hrec]

/-- C1: `fetch_all_repository_data` requests pages sequentially from page 1
with fixed page size 100 (both are fixed in its definition), stops exactly
when a page comes back empty, and returns the concatenation of the
normalized records in page order after `n + 1` requests when pages
`1, …, n` are nonempty and page `n + 1` is empty. The witness instantiates
the upstream page sizes `[100, 100, 37, 0]`: exactly 237 records in page
order and exactly 4 requests. -/
theorem C1_pagination_protocol
    (server : Nat → Nat → Except FetchError (List RepoJson))
    (pages : Nat → List RepoJson) (n fuel : Nat)
    (hfuel : n + 1 ≤ fuel)
    (hpages : ∀ i, 1 ≤ i → i ≤ n → server i 100 = .ok (pages i) ∧ pages i ≠ [])
    (hstop : server (n + 1) 100 = .ok []) :
    fetch_all_repository_data server fuel =
      some (.ok (((List.range' 1 n).map (fun i => (pages i).map normalize_repo)).flatten),
        n + 1) := by
  unfold fetch_all_repository_data
  exact fetch_pages_ok_spec server pages n 1 fuel hfuel
    (fun i h1 h2 => hpages i h1 (by omega))
    (by rw [show 1 + n = n + 1 by omega]; exact hstop)

/-- Witness for C1 at the spec's `[100, 100, 37, 0]` upstream: 237 records
in page order and 4 requests. -/
theorem C1_pagination_protocol_witness :
    fetch_all_repository_data exampleServer 4 =
      some (.ok (((List.range' 1 3).map
        (fun i => (examplePages i).map normalize_repo)).flatten), 4) ∧
    (((List.range' 1 3).map
        (fun i => (examplePages i).map normalize_repo)).flatten).length = 237 := by
  constructor
  · exact C1_pagination_protocol exampleServer examplePages 3 4 (by omega)
      (fun i h1 h2 => by interval_cases i <;> exact ⟨rfl, by decide⟩)
      rfl
  · rfl

/-- C2: if every page before `m + 1` succeeds nonempty and the request for
page `m + 1` fails with a transport or HTTP error, the whole fetch aborts
with exactly that error: the result is `Except.error e`, which carries no
record list, so the caller receives zero records no matter how many pages
had already succeeded. -/
theorem C2_fetch_abort_on_error
    (server : Nat → Nat → Except FetchError (List RepoJson))
    (pages : Nat → List RepoJson) (m fuel : Nat) (e : FetchError)
    (hfuel : m + 1 ≤ fuel)
    (hpages : ∀ i, 1 ≤ i → i ≤ m → server i 100 = .ok (pages i) ∧ pages i ≠ [])
    (herr : server (m + 1) 100 = .error e) :
    fetch_all_repository_data server fuel = some (.error e, m + 1) := by
  unfold fetch_all_repository_data
  exact fetch_pages_error_spec server pages e m 1 fuel hfuel
    (fun i h1 h2 => hpages i h1 (by omega))
    (by rw [show 1 + m = m + 1 by omega]; exact herr)

/-- Witness for C2 at the spec's `[100, <HTTP 500>]` upstream: the fetch
aborts with `RemoteHttpError 500` after 2 requests and yields no records. -/
theorem C2_fetch_abort_on_error_witness :
    fetch_all_repository_data exampleAbortServer 2 =
      some (.error (.RemoteHttpError 500), 2) :=
  C2_fetch_abort_on_error exampleAbortServer (fun _ => List.replicate 100 {}) 1 2
    (.RemoteHttpError 500) (by omega)
    (fun i h1 h2 => by interval_cases i; exact ⟨rfl, by decide⟩)
    rfl

/-! ## User-profile normalization -/

/-- C3 counterexample: the claim "for every string field that the upstream
mapping omits or sets to null the output is the sentinel N/A" fails for the
`name` field: an upstream mapping that omits `name` but carries
`login = "octocat"` normalizes `name` to `"octocat"`, not `"N/A"`, because
the code computes `name or login or "N/A"`. -/
theorem C3_counterexample :
    ({ login := some "octocat" } : UserJson).name = none ∧
    (normalize_user_json { login := some "octocat" }).name = "octocat" ∧
    (normalize_user_json { login := some "octocat" }).name ≠ "N/A" := by
  refine ⟨rfl, rfl, ?_⟩
  decide

/-- C3 (amended): normalization is total (it is a Lean function, defined on
every `UserJson`, mirroring the all-`dict.get` Python body which cannot
raise), and on a missing-or-null upstream field it yields the sentinel:
`"N/A"` for every string field other than `name`, `"No bio provided."` for
`bio`, `0` for every integer field; `name` first falls back to the upstream
`login` and is `"N/A"` only when `name` and `login` are both
missing/null. -/
theorem C3_normalization_defaults (j : UserJson) :
    (j.node_id = none → (normalize_user_json j).node_id = "N/A") ∧
    (j.html_url = none → (normalize_user_json j).profile_url = "N/A") ∧
    (j.avatar_url = none → (normalize_user_json j).avatar_url = "N/A") ∧
    (j.«type» = none → (normalize_user_json j).«type» = "N/A") ∧
    (j.company = none → (normalize_user_json j).company = "N/A") ∧
    (j.location = none → (normalize_user_json j).location = "N/A") ∧
    (j.email = none → (normalize_user_json j).email = "N/A") ∧
    (j.blog = none → (normalize_user_json j).blog = "N/A") ∧
    (j.twitter_username = none → (normalize_user_json j).twitter_username = "N/A") ∧
    (j.created_at = none → (normalize_user_json j).created_at = "N/A") ∧
    (j.followers_url = none → (normalize_user_json j).followers_url = "N/A") ∧
    (j.following_url = none → (normalize_user_json j).following_url = "N/A") ∧
    (j.bio = none → (normalize_user_json j).bio = "No bio provided.") ∧
    (j.name = none → j.login = none → (normalize_user_json j).name = "N/A") ∧
    (j.followers = none → (normalize_user_json j).followers = 0) ∧
    (j.following = none → (normalize_user_json j).following = 0) ∧
    (j.public_repos = none → (normalize_user_json j).public_repos = 0) ∧
    (j.public_gists = none → (normalize_user_json j).public_gists = 0) := by
  refine ⟨?_, ?_, ?_, ?_, ?_, ?_, ?_, ?_, ?_, ?_, ?_, ?_, ?_, ?_, ?_, ?_, ?_, ?_⟩ <;>
    first
      | (intro h h'; simp [normalize_user_json, pyOr, pyStr, pyIntOr0, h, h'])
      | (intro h; simp [normalize_user_json, pyOr, pyStr, pyIntOr0, h])

/-- Witness for C3 (amended) at the everywhere-absent upstream mapping. -/
theorem C3_normalization_defaults_witness :
    (normalize_user_json {}).node_id = "N/A" ∧
    (normalize_user_json {}).profile_url = "N/A" ∧
    (normalize_user_json {}).avatar_url = "N/A" ∧
    (normalize_user_json {}).«type» = "N/A" ∧
    (normalize_user_json {}).company = "N/A" ∧
    (normalize_user_json {}).location = "N/A" ∧
    (normalize_user_json {}).email = "N/A" ∧
    (normalize_user_json {}).blog = "N/A" ∧
    (normalize_user_json {}).twitter_username = "N/A" ∧
    (normalize_user_json {}).created_at = "N/A" ∧
    (normalize_user_json {}).followers_url = "N/A" ∧
    (normalize_user_json {}).following_url = "N/A" ∧
    (normalize_user_json {}).bio = "No bio provided." ∧
    (normalize_user_json {}).name = "N/A" ∧
    (normalize_user_json {}).followers = 0 ∧
    (normalize_user_json {}).following = 0 ∧
    (normalize_user_json {}).public_repos = 0 ∧
    (normalize_user_json {}).public_gists = 0 := by
  obtain ⟨h1, h2, h3, h4, h5, h6, h7, h8, h9, h10, h11, h12, h13, h14, h15, h16, h17, h18⟩ :=
    C3_normalization_defaults {}
  exact ⟨h1 rfl, h2 rfl, h3 rfl, h4 rfl, h5 rfl, h6 rfl, h7 rfl, h8 rfl, h9 rfl, h10 rfl,
    h11 rfl, h12 rfl, h13 rfl, h14 rfl rfl, h15 rfl, h16 rfl, h17 rfl, h18 rfl⟩

/-- C9: normalization substitutes sentinels for every falsy upstream value,
not only missing/null ones: a present-but-empty string normalizes to
`"N/A"` (`"No bio provided."` for `bio`), a null integer field to `0`
(`none` models both a missing and a `null` value, which `dict.get`
conflates); and `name` falls back to the upstream `login` value before the
sentinel, so a mapping with no usable `name` (missing, null or empty) but a
nonempty `login` gets `login` — never the `"N/A"` sentinel — as its
normalized name. -/
theorem C9_falsy_sentinels (j : UserJson) (l : String) :
    (j.node_id = some "" → (normalize_user_json j).node_id = "N/A") ∧
    (j.html_url = some "" → (normalize_user_json j).profile_url = "N/A") ∧
    (j.avatar_url = some "" → (normalize_user_json j).avatar_url = "N/A") ∧
    (j.«type» = some "" → (normalize_user_json j).«type» = "N/A") ∧
    (j.company = some "" → (normalize_user_json j).company = "N/A") ∧
    (j.location = some "" → (normalize_user_json j).location = "N/A") ∧
    (j.email = some "" → (normalize_user_json j).email = "N/A") ∧
    (j.blog = some "" → (normalize_user_json j).blog = "N/A") ∧
    (j.twitter_username = some "" → (normalize_user_json j).twitter_username = "N/A") ∧
    (j.created_at = some "" → (normalize_user_json j).created_at = "N/A") ∧
    (j.followers_url = some "" → (normalize_user_json j).followers_url = "N/A") ∧
    (j.following_url = some "" → (normalize_user_json j).following_url = "N/A") ∧
    (j.bio = some "" → (normalize_user_json j).bio = "No bio provided.") ∧
    (j.followers = none → (normalize_user_json j).followers = 0) ∧
    (j.following = none → (normalize_user_json j).following = 0) ∧
    (j.public_repos = none → (normalize_user_json j).public_repos = 0) ∧
    (j.public_gists = none → (normalize_user_json j).public_gists = 0) ∧
    ((j.name = none ∨ j.name = some "") → j.login = some l → l ≠ "" →
      (normalize_user_json j).name = l) := by
  have hname : (j.name = none ∨ j.name = some "") → j.login = some l → l ≠ "" →
      (normalize_user_json j).name = l := by
    rintro (h | h) h' h'' <;>
      simp [normalize_user_json, pyOr, pyStr, h, h', h'']
  refine ⟨?_, ?_, ?_, ?_, ?_, ?_, ?_, ?_, ?_, ?_, ?_, ?_, ?_, ?_, ?_, ?_, ?_, hname⟩ <;>
    (intro h; simp [normalize_user_json, pyOr, pyStr, pyIntOr0, h])

/-- Witness for C9 at a mapping whose string fields are all present but
empty, whose integer fields are null, and whose `login` is `"octocat"`. -/
theorem C9_falsy_sentinels_witness :
    (normalize_user_json
        { name := some "", login := some "octocat", node_id := some "",
          html_url := some "", avatar_url := some "", «type» := some "",
          company := some "", location := some "", email := some "",
          blog := some "", twitter_username := some "", created_at := some "",
          followers_url := some "", following_url := some "", bio := some "" }).company
      = "N/A" ∧
    (normalize_user_json
        { name := some "", login := some "octocat", node_id := some "",
          html_url := some "", avatar_url := some "", «type» := some "",
          company := some "", location := some "", email := some "",
          blog := some "", twitter_username := some "", created_at := some "",
          followers_url := some "", following_url := some "", bio := some "" }).bio
      = "No bio provided." ∧
    (normalize_user_json
        { name := some "", login := some "octocat", node_id := some "",
          html_url := some "", avatar_url := some "", «type» := some "",
          company := some "", location := some "", email := some "",
          blog := some "", twitter_username := some "", created_at := some "",
          followers_url := some "", following_url := some "", bio := some "" }).followers
      = 0 ∧
    (normalize_user_json
        { name := some "", login := some "octocat", node_id := some "",
          html_url := some "", avatar_url := some "", «type» := some "",
          company := some "", location := some "", email := some "",
          blog := some "", twitter_username := some "", created_at := some "",
          followers_url := some "", following_url := some "", bio := some "" }).name
      = "octocat" := by
  obtain ⟨h1, h2, h3, h4, h5, h6, h7, h8, h9, h10, h11, h12, h13, h14, h15, h16, h17, h18⟩ :=
    C9_falsy_sentinels
      { name := some "", login := some "octocat", node_id := some "",
        html_url := some "", avatar_url := some "", «type» := some "",
        company := some "", location := some "", email := some "",
        blog := some "", twitter_username := some "", created_at := some "",
        followers_url := some "", following_url := some "", bio := some "" }
      "octocat"
  exact ⟨h5 rfl, h13 rfl, h14 rfl, h18 (Or.inr rfl) rfl (by decide)⟩

/-! ## Aggregation -/

/-- C4: aggregation is a pure function of the
`{user_data, repo_data}` bundle: `total_public_repos` is the length of the
repository list passed in — the profile's self-reported `public_repos`
(carried in `u` but never read) does not enter the result — and
`total_followers`, `total_following`, `total_public_gists` are copied
verbatim from the profile's `followers`, `following`, `public_gists`
fields, for every repository list `repos`, whatever its records contain. -/
theorem C4_aggregation_pure (u : StatsUserInput) (repos : List RepoMetadata)
    (f g z : Int) (hf : u.followers = some f) (hg : u.following = some g)
    (hz : u.public_gists = some z) :
    compute_summary_stats_activity { user_data := some u, repo_data := some repos } =
      { total_public_repos := (repos.length : Int)
        total_followers := f
        total_following := g
        total_public_gists := z } := by
  simp [compute_summary_stats_activity, pyIntOr0, hf, hg, hz]

/-- Witness for C4 at the spec's §8 example:
`aggregate({followers:10, following:3, public_gists:2}, [r1,r2,r3])`
(with a deliberately wrong self-reported `public_repos := 999` and three
distinct repository records) yields
`{totalPublicRepos:3, totalFollowers:10, totalFollowing:3,
totalPublicGists:2}`. -/
theorem C4_aggregation_pure_witness :
    compute_summary_stats_activity
      { user_data := some
          { followers := some 10, following := some 3,
            public_gists := some 2, public_repos := some 999 }
        repo_data := some
          [normalize_repo { name := some "r1" },
           normalize_repo { name := some "r2", stargazers_count := some 7 },
           normalize_repo { name := some "r3", language := some "Rust" }] } =
      { total_public_repos := 3
        total_followers := 10
        total_following := 3
        total_public_gists := 2 } :=
  C4_aggregation_pure
    { followers := some 10, following := some 3,
      public_gists := some 2, public_repos := some 999 }
    [normalize_repo { name := some "r1" },
     normalize_repo { name := some "r2", stargazers_count := some 7 },
     normalize_repo { name := some "r3", language := some "Rust" }]
    10 3 2 rfl rfl rfl

/-- C10: aggregation is total over arbitrary partial bundles (it is a Lean
function on all of `RawData`, mirroring the Python body that only uses
`dict.get` with defaults and `len`, which cannot raise): a missing
`user_data` key behaves as an empty profile, making the three profile
counts 0, and a missing `repo_data` key behaves as an empty collection,
making `total_public_repos` 0. -/
theorem C10_aggregation_defaults (raw : RawData) :
    (raw.user_data = none →
      (compute_summary_stats_activity raw).total_followers = 0 ∧
      (compute_summary_stats_activity raw).total_following = 0 ∧
      (compute_summary_stats_activity raw).total_public_gists = 0) ∧
    (raw.repo_data = none →
      (compute_summary_stats_activity raw).total_public_repos = 0) := by
  constructor
  · intro h
    refine ⟨?_, ?_, ?_⟩ <;> simp [compute_summary_stats_activity, pyIntOr0, h]
  · intro h
    simp [compute_summary_stats_activity, h]

/-- Witness for C10 at the empty bundle: every aggregate count is 0. -/
theorem C10_aggregation_defaults_witness :
    (compute_summary_stats_activity { user_data := none, repo_data := none }).total_followers
        = 0 ∧
    (compute_summary_stats_activity { user_data := none, repo_data := none }).total_following
        = 0 ∧
    (compute_summary_stats_activity { user_data := none, repo_data := none }).total_public_gists
        = 0 ∧
    (compute_summary_stats_activity { user_data := none, repo_data := none }).total_public_repos
        = 0 := by
  obtain ⟨hu, hr⟩ := C10_aggregation_defaults { user_data := none, repo_data := none }
  obtain ⟨h1, h2, h3⟩ := hu rfl
  exact ⟨h1, h2, h3, hr rfl⟩

/-! ## Preflight and credential resolution -/

/-- C5: preflight fails with a configuration error — and performs no fetch —
whenever the resolved username or the resolved token is absent (missing,
null or empty, which the code's `if not …` checks conflate); when both are
present it performs exactly one profile fetch, with the resolved username,
as a probe (the fetch log is `[u]` whether the probe succeeds or fails),
and on probe success it returns `passed`, which carries no payload — the
fetched profile is discarded. -/
theorem C5_preflight_check (fetch : String → Except FetchError UserJson)
    (args : Option WorkflowArgsCreds) (env : Env) :
    ((pyStr (resolve_credentials args env).1 = none ∨
        pyStr (resolve_credentials args env).2 = none) →
      ∃ msg, preflight_check fetch args env = (.configurationError msg, [])) ∧
    (∀ u, pyStr (resolve_credentials args env).1 = some u →
      pyStr (resolve_credentials args env).2 ≠ none →
      (preflight_check fetch args env).2 = [u] ∧
      ∀ profile, fetch u = .ok profile →
        preflight_check fetch args env = (.passed, [u])) := by
  cases hp : pyStr (resolve_credentials args env).2 with
  | none =>
    refine ⟨fun _ => ⟨"Personal Access Token (PAT) is missing.", ?_⟩,
      fun u _ hp' => absurd rfl hp'⟩
    simp [preflight_check, hp]
  | some pv =>
    cases hu : pyStr (resolve_credentials args env).1 with
    | none =>
      refine ⟨fun _ => ⟨"GitHub username is missing.", ?_⟩,
        fun u hu' _ => by simp [hu] at hu'⟩
      simp [preflight_check, hp, hu]
    | some uv =>
      refine ⟨fun h => ?_, fun u hu' _ => ?_⟩
      · rcases h with h | h <;> cases h
      · injection hu' with he
        subst he
        constructor
        · simp only [preflight_check, hp, hu]
          cases hf : fetch uv <;> simp [hf]
        · intro profile hf
          simp [preflight_check, hp, hu, hf]

/-- Witness for C5: with no configuration at all, preflight fails with a
configuration error and fetches nothing; with both credentials present it
fetches exactly once, for the configured username, and passes with no
payload. -/
theorem C5_preflight_check_witness :
    (∃ msg, preflight_check probeOk none {} = (.configurationError msg, [])) ∧
    (preflight_check probeOk
        (some { username := some "octocat", pat := some "tok" }) {}).2 = ["octocat"] ∧
    preflight_check probeOk
        (some { username := some "octocat", pat := some "tok" }) {} =
      (.passed, ["octocat"]) := by
  have h2 := (C5_preflight_check probeOk
    (some { username := some "octocat", pat := some "tok" }) {}).2
    "octocat" (by decide) (by decide)
  exact ⟨(C5_preflight_check probeOk none {}).1 (Or.inl rfl), h2.1, h2.2 {} rfl⟩

/-- C6: credential resolution prefers the explicit configuration mapping —
a usable (nonempty) username or token in the config overrides the
`GITHUB_USERNAME` / `GITHUB_PAT` environment variables — and an absent
config value falls through to the corresponding environment variable. The
environment is an explicit argument of `resolve_credentials` because the
Python code reads `os.getenv` inside the function body at each call;
nothing is cached at construction, so the universally quantified `env`
here is whatever environment holds at call time, and the last conjunct
shows the result tracking it. -/
theorem C6_credential_precedence (a : WorkflowArgsCreds) (env : Env) (u p : String) :
    (a.username = some u → u ≠ "" → (resolve_credentials (some a) env).1 = some u) ∧
    (a.pat = some p → p ≠ "" → (resolve_credentials (some a) env).2 = some p) ∧
    (a.username = none → (resolve_credentials (some a) env).1 = env.GITHUB_USERNAME) ∧
    (a.pat = none → (resolve_credentials (some a) env).2 = env.GITHUB_PAT) ∧
    resolve_credentials none env = (env.GITHUB_USERNAME, env.GITHUB_PAT) := by
  refine ⟨?_, ?_, ?_, ?_, ?_⟩
  · intro h h'; simp [resolve_credentials, pyStr, h, h']
  · intro h h'; simp [resolve_credentials, pyStr, h, h']
  · intro h; simp [resolve_credentials, pyStr, h]
  · intro h; simp [resolve_credentials, pyStr, h]
  · simp [resolve_credentials, pyStr]

/-- Witness for C6 at the spec's §8 example: config `{username := "a"}`
overrides environment `GITHUB_USERNAME = "b"`, the absent config PAT falls
through to `GITHUB_PAT = "t"`, and with no config both come from the
environment. -/
theorem C6_credential_precedence_witness :
    (resolve_credentials
        (some { username := some "a", pat := none })
        { GITHUB_USERNAME := some "b", GITHUB_PAT := some "t" }).1 = some "a" ∧
    (resolve_credentials
        (some { username := some "a", pat := none })
        { GITHUB_USERNAME := some "b", GITHUB_PAT := some "t" }).2 = some "t" ∧
    resolve_credentials none { GITHUB_USERNAME := some "b", GITHUB_PAT := some "t" } =
      (some "b", some "t") := by
  obtain ⟨h1, _, _, h4, h5⟩ := C6_credential_precedence
    { username := some "a", pat := none }
    { GITHUB_USERNAME := some "b", GITHUB_PAT := some "t" } "a" ""
  exact ⟨h1 rfl (by decide), h4 rfl, h5⟩

/-! ## Workflow orchestration -/

/-- C7: the fan-out/fan-in barrier. In every run, if the aggregation
activity was invoked then both the profile and the repository retrieval
delivered a success; and whenever repository retrieval fails permanently
after profile retrieval succeeded, aggregation is never invoked and the
whole run fails with that error. -/
theorem C7_barrier (acts : ActivityOutcomes) :
    ((∃ d ∈ (GitHubWorkflow.run acts).2, d.step = .computeSummaryStats) →
      (∃ u, acts.retrieve_user_profile = .ok u) ∧
      (∃ r, acts.retrieve_repositories = .ok r)) ∧
    (∀ e u, acts.preflight = .ok () →
      acts.retrieve_user_profile = .ok u →
      acts.retrieve_repositories = .error e →
      (∀ d ∈ (GitHubWorkflow.run acts).2, d.step ≠ .computeSummaryStats) ∧
      (GitHubWorkflow.run acts).1 = .error e) := by
  constructor
  · intro ⟨d, hd, hstep⟩
    cases hpre : acts.preflight with
    | error e =>
      rw [GitHubWorkflow.run, hpre] at hd
      simp at hd
      rw [hd] at hstep
      cases hstep
    | ok _ =>
      cases hprof : acts.retrieve_user_profile with
      | error e =>
        rw [GitHubWorkflow.run, hpre, hprof] at hd
        simp at hd
        rcases hd with hd | hd | hd <;> (rw [hd] at hstep; cases hstep)
      | ok u =>
        cases hrepo : acts.retrieve_repositories with
        | error e =>
          rw [GitHubWorkflow.run, hpre, hprof, hrepo] at hd
          simp at hd
          rcases hd with hd | hd | hd <;> (rw [hd] at hstep; cases hstep)
        | ok r => exact ⟨⟨u, rfl⟩, ⟨r, rfl⟩⟩
  · intro e u hpre hprof hrepo
    constructor
    · intro d hd
      rw [GitHubWorkflow.run, hpre, hprof, hrepo] at hd
      simp at hd
      rcases hd with hd | hd | hd <;> (rw [hd]; decide)
    · rw [GitHubWorkflow.run, hpre, hprof, hrepo]

/-- Witness for C7: on all-successful outcomes aggregation is invoked and
both fetches indeed succeeded; on outcomes whose repository retrieval
fails after a successful profile retrieval, the run ends in that error (and
no invoked step is the aggregation). -/
theorem C7_barrier_witness :
    ((∃ u, sampleOutcomesOk.retrieve_user_profile = .ok u) ∧
      (∃ r, sampleOutcomesOk.retrieve_repositories = .ok r)) ∧
    (∀ d ∈ (GitHubWorkflow.run sampleOutcomesRepoFail).2,
      d.step ≠ .computeSummaryStats) ∧
    (GitHubWorkflow.run sampleOutcomesRepoFail).1 = .error "boom" := by
  refine ⟨(C7_barrier sampleOutcomesOk).1 ?_, ?_, ?_⟩
  · exact ⟨{ step := .computeSummaryStats
             retry_policy := workflow_retry_policy
             start_to_close_timeout := 60 }, by decide, rfl⟩
  · exact ((C7_barrier sampleOutcomesRepoFail).2 "boom" (normalize_user_json {}) rfl rfl rfl).1
  · exact ((C7_barrier sampleOutcomesRepoFail).2 "boom" (normalize_user_json {}) rfl rfl rfl).2

/-- C8: every `execute_activity_method` declaration a run issues carries
the retry policy `maximum_attempts = 6`, `backoff_coefficient = 2`; the
preflight step is declared with the (spec-modelled)
`default_start_to_close_timeout`, every other step with 60 seconds, and
the preflight timeout is longer than 60. -/
theorem C8_retry_policy_and_timeouts (acts : ActivityOutcomes) :
    (∀ d ∈ (GitHubWorkflow.run acts).2,
      d.retry_policy.maximum_attempts = 6 ∧
      d.retry_policy.backoff_coefficient = 2 ∧
      d.start_to_close_timeout =
        (if d.step = .preflight then default_start_to_close_timeout else 60)) ∧
    60 < default_start_to_close_timeout := by
  refine ⟨?_, by decide⟩
  intro d hd
  cases hpre : acts.preflight with
  | error e =>
    rw [GitHubWorkflow.run, hpre] at hd
    simp at hd
    rw [hd]
    decide
  | ok _ =>
    cases hprof : acts.retrieve_user_profile with
    | error e =>
      rw [GitHubWorkflow.run, hpre, hprof] at hd
      simp at hd
      rcases hd with hd | hd | hd <;> (rw [hd]; decide)
    | ok u =>
      cases hrepo : acts.retrieve_repositories with
      | error e =>
        rw [GitHubWorkflow.run, hpre, hprof, hrepo] at hd
        simp at hd
        rcases hd with hd | hd | hd <;> (rw [hd]; decide)
      | ok r =>
        rw [GitHubWorkflow.run, hpre, hprof, hrepo] at hd
        simp at hd
        rcases hd with hd | hd | hd | hd <;> (rw [hd]; decide)

/-- Witness for C8: in an all-successful run, the preflight declaration
carries retry policy (6, 2) and the long timeout. -/
theorem C8_retry_policy_and_timeouts_witness :
    ({ step := .preflight
       retry_policy := workflow_retry_policy
       start_to_close_timeout := default_start_to_close_timeout } :
        StepDecl).retry_policy.maximum_attempts = 6 ∧
    ({ step := .preflight
       retry_policy := workflow_retry_policy
       start_to_close_timeout := default_start_to_close_timeout } :
        StepDecl).retry_policy.backoff_coefficient = 2 ∧
    ({ step := .preflight
       retry_policy := workflow_retry_policy
       start_to_close_timeout := default_start_to_close_timeout } :
        StepDecl).start_to_close_timeout =
      (if (StepName.preflight = StepName.preflight) then
        default_start_to_close_timeout else 60) ∧
    60 < default_start_to_close_timeout := by
  obtain ⟨hall, hlt⟩ := C8_retry_policy_and_timeouts sampleOutcomesOk
  obtain ⟨h1, h2, h3⟩ := hall
    { step := .preflight
      retry_policy := workflow_retry_policy
      start_to_close_timeout := default_start_to_close_timeout }
    (by decide)
  exact ⟨h1, h2, h3, hlt⟩

end GitHubApp
